import Mathlib

/-!
Shallow embedding of the COSMOS workflow engine core
(`cosmos/__init__.py` and `cosmos/models/Tool.py`): the DRM
submit-argument formatter, the status enumerations, Tool validation,
the input resolver `_find` / `_map_inputs`, and tool chaining
(`chain` and the chained `_generate_command` bookkeeping), together
with theorems checking the specification's claims against the code.

Conventions: Python `None`-able values are `Option`; Python 2 integer
division on nonnegative ints is `Nat` division; a Python exception is
an `Except.error` carrying the exception's name; Python truthiness of
optional ints and strings is made explicit (`pyTruthyNat`,
`pyTruthyStr`).
-/

/-- Character-list prefix test, used to embed the Python substring
operator `needle in hay`. -/
def chPre : List Char → List Char → Bool
  | [], _ => true
  | _ :: _, [] => false
  | a :: as, b :: bs => a == b && chPre as bs

/-- Character-list substring test. -/
def chSub : List Char → List Char → Bool
  | needle, [] => needle.isEmpty
  | needle, b :: bs => chPre needle (b :: bs) || chSub needle bs

/-- Embedding of the Python substring operator: `strContains hay needle`
is `needle in hay`. -/
def strContains (hay needle : String) : Bool :=
  chSub needle.data hay.data

/-- Python truthiness of an optional integer: `None` and `0` are falsy. -/
def pyTruthyNat : Option Nat → Bool
  | none => false
  | some n => decide (n ≠ 0)

/-- Python truthiness of an optional string: `None` and the empty string
are falsy. -/
def pyTruthyStr : Option String → Bool
  | none => false
  | some s => decide (s ≠ "")

/-- Embedding of the Python idiom `x or 0` for an optional integer. -/
def pyOr0 : Option Nat → Nat
  | none => 0
  | some n => n

/-- Python `%s`-rendering of an optional integer (`None` prints as
`"None"`). -/
def pyShowOptNat : Option Nat → String
  | none => "None"
  | some n => toString n

/-- String concatenation is associative (used to normalise rendered
submit strings). -/
theorem str_append_assoc (a b c : String) : a ++ b ++ c = a ++ (b ++ c) :=
  String.ext (by simp [String.data_append])

/-- The fields of a `Task` read by `default_get_submit_args` in
`cosmos/__init__.py`: resource requests, the owning stage's name and
the task id. -/
structure SubmitTask where
  cpu_req : Option Nat
  mem_req : Option Nat
  time_req : Option Nat
  stage_name : String
  id : Nat
deriving DecidableEq

/-- Embedding of `default_get_submit_args` (`cosmos/__init__.py`,
lines 26-54).  The lsf branch computes `(mem_req or 0) / cpu_req`: with
`cpu_req = None` Python 2 raises `TypeError`, with `cpu_req = 0` it
raises `ZeroDivisionError`; otherwise the division is Python 2 integer
division.  The `-W` piece is emitted only when `time_req` is truthy and
the `-q` piece only when `default_queue` is truthy.  `drm == 'local'`
returns `None`; any other drm without an `lsf` or `ge` substring raises
`Exception('DRM not supported')`. -/
def default_get_submit_args (drm : String) (task : SubmitTask)
    (default_queue : Option String) : Except String (Option String) :=
  let jobname := task.stage_name ++ "_task(" ++ toString task.id ++ ")"
  if strContains drm "lsf" then
    match task.cpu_req with
    | none => .error "TypeError"
    | some 0 => .error "ZeroDivisionError"
    | some c =>
      let mem := pyOr0 task.mem_req / c
      let timePart :=
        if pyTruthyNat task.time_req then " -W 0:" ++ toString (task.time_req.getD 0) else ""
      let queuePart :=
        if pyTruthyStr default_queue then " -q " ++ default_queue.getD "" else ""
      .ok (some ("-R \"rusage[mem=" ++ toString mem ++ "] span[hosts=1]\" -n "
        ++ toString c ++ timePart ++ queuePart ++ " -J \"" ++ jobname ++ "\""))
  else if strContains drm "ge" then
    let queuePart :=
      if pyTruthyStr default_queue then " -q " ++ default_queue.getD "" else ""
    .ok (some ("-pe smp " ++ pyShowOptNat task.cpu_req ++ queuePart
      ++ " -N \"" ++ jobname ++ "\""))
  else if drm = "local" then
    .ok none
  else
    .error "DRM not supported"

/-- C1 counterexample.  The claim states the `-W 0:<T>` piece is present
iff `time_req` is set and the `-q <Q>` piece is present iff the default
queue is set.  With `time_req = 0` and `default_queue = ""` (both set),
the claim predicts the submit string
`-R "rusage[mem=5] span[hosts=1]" -n 1 -W 0:0 -q  -J "S_task(7)"`,
but the code tests Python truthiness and omits both pieces. -/
theorem C1_counterexample :
    default_get_submit_args "lsf" ⟨some 1, some 5, some 0, "S", 7⟩ (some "") =
      .ok (some "-R \"rusage[mem=5] span[hosts=1]\" -n 1 -J \"S_task(7)\"")
    ∧ "-R \"rusage[mem=5] span[hosts=1]\" -n 1 -J \"S_task(7)\""
      ≠ "-R \"rusage[mem=5] span[hosts=1]\" -n 1 -W 0:0 -q  -J \"S_task(7)\"" := by
  exact ⟨rfl, by decide⟩

/-- C1 (amended): for every task whose drm contains `lsf`, with
`cpu_req = some c`, `c > 0`, the rendered submit arguments are exactly
`-R "rusage[mem=<(mem_req or 0) div c>] span[hosts=1]" -n <c>`,
followed by ` -W 0:<T>` iff `time_req` is set *and nonzero*, followed
by ` -q <Q>` iff the default queue is set *and nonempty*, followed by
` -J "<stage_name>_task(<task_id>)"`. -/
theorem C1_lsf_submit_args (drm : String) (task : SubmitTask) (q : Option String)
    (c : Nat) (hd : strContains drm "lsf" = true) (hc : task.cpu_req = some c)
    (hp : 0 < c) :
    default_get_submit_args drm task q = .ok (some (
      "-R \"rusage[mem=" ++ toString (pyOr0 task.mem_req / c) ++ "] span[hosts=1]\" -n "
      ++ toString c
      ++ (match task.time_req with
          | none => ""
          | some t => if t = 0 then "" else " -W 0:" ++ toString t)
      ++ (match q with
          | none => ""
          | some s => if s = "" then "" else " -q " ++ s)
      ++ " -J \"" ++ task.stage_name ++ "_task(" ++ toString task.id ++ ")\"")) := by
  obtain ⟨cpu, mem, time, sn, tid⟩ := task
  simp only at hc
  subst hc
  cases c with
  | zero => omega
  | succ k =>
    simp only [default_get_submit_args, hd, if_true]
    cases time with
    | none =>
      cases q with
      | none => simp [pyTruthyNat, pyTruthyStr, str_append_assoc]
      | some s =>
        by_cases hs : s = "" <;>
          simp [pyTruthyNat, pyTruthyStr, hs, str_append_assoc]
    | some t =>
      cases q with
      | none =>
        by_cases ht : t = 0 <;>
          simp [pyTruthyNat, pyTruthyStr, ht, str_append_assoc]
      | some s =>
        by_cases ht : t = 0 <;> by_cases hs : s = "" <;>
          simp [pyTruthyNat, pyTruthyStr, ht, hs, str_append_assoc]

/-- C1 witness: the spec's S2 scenario, cpu_req=4, mem_req=8000,
time_req=60, queue "batch". -/
theorem C1_lsf_submit_args_witness :
    default_get_submit_args "lsf" ⟨some 4, some 8000, some 60, "Compute", 1⟩
      (some "batch") =
    .ok (some "-R \"rusage[mem=2000] span[hosts=1]\" -n 4 -W 0:60 -q batch -J \"Compute_task(1)\"") := by
  have h := C1_lsf_submit_args "lsf" ⟨some 4, some 8000, some 60, "Compute", 1⟩
    (some "batch") 4 (by decide) rfl (by decide)
  rw [h]
  rfl

/-- C7: a drm that contains neither `lsf` nor `ge` and is not `local`
makes `default_get_submit_args` raise (`UnsupportedDRM` in the spec's
taxonomy, `Exception('DRM not supported')` in the code); drm `local`
returns `None`. -/
theorem C7_unsupported_drm (drm : String) (task : SubmitTask) (q : Option String) :
    (strContains drm "lsf" = false → strContains drm "ge" = false → drm ≠ "local" →
      default_get_submit_args drm task q = .error "DRM not supported")
    ∧ (drm = "local" → default_get_submit_args drm task q = .ok none) := by
  constructor
  · intro h1 h2 h3
    simp [default_get_submit_args, h1, h2, h3]
  · intro h
    subst h
    simp [default_get_submit_args, strContains, chSub, chPre]

/-- C7 witness: concrete unknown drm `slurm` and concrete `local`. -/
theorem C7_unsupported_drm_witness :
    default_get_submit_args "slurm" ⟨none, none, none, "", 0⟩ none =
      .error "DRM not supported"
    ∧ default_get_submit_args "local" ⟨none, none, none, "", 0⟩ none = .ok none := by
  exact ⟨(C7_unsupported_drm "slurm" ⟨none, none, none, "", 0⟩ none).1
            (by decide) (by decide) (by decide),
         (C7_unsupported_drm "local" ⟨none, none, none, "", 0⟩ none).2 rfl⟩

/-- C9: on an lsf drm the formatter unconditionally divides by
`cpu_req`: it raises `TypeError` when `cpu_req` is `None` (the Tool
default) and `ZeroDivisionError` when `cpu_req` is `0`, and returns a
string for every nonzero `cpu_req`. -/
theorem C9_lsf_requires_cpu (drm : String) (task : SubmitTask) (q : Option String)
    (hd : strContains drm "lsf" = true) :
    (task.cpu_req = none → default_get_submit_args drm task q = .error "TypeError")
    ∧ (task.cpu_req = some 0 →
        default_get_submit_args drm task q = .error "ZeroDivisionError")
    ∧ (∀ c : Nat, task.cpu_req = some (c + 1) →
        ∃ s, default_get_submit_args drm task q = .ok (some s)) := by
  refine ⟨?_, ?_, ?_⟩
  · intro h
    simp [default_get_submit_args, hd, h]
  · intro h
    simp [default_get_submit_args, hd, h]
  · intro c h
    simp only [default_get_submit_args, hd, if_true, h]
    exact ⟨_, rfl⟩

/-- C9 witness: concrete lsf tasks with `cpu_req` of `None`, `0` and `3`. -/
theorem C9_lsf_requires_cpu_witness :
    default_get_submit_args "lsf" ⟨none, some 100, none, "S", 1⟩ none =
      .error "TypeError"
    ∧ default_get_submit_args "lsf" ⟨some 0, some 100, none, "S", 1⟩ none =
      .error "ZeroDivisionError"
    ∧ ∃ s, default_get_submit_args "lsf" ⟨some 3, some 100, none, "S", 1⟩ none =
      .ok (some s) := by
  exact ⟨(C9_lsf_requires_cpu "lsf" ⟨none, some 100, none, "S", 1⟩ none (by decide)).1 rfl,
         (C9_lsf_requires_cpu "lsf" ⟨some 0, some 100, none, "S", 1⟩ none (by decide)).2.1 rfl,
         (C9_lsf_requires_cpu "lsf" ⟨some 3, some 100, none, "S", 1⟩ none (by decide)).2.2 2 rfl⟩

/-- A concrete `TaskFile` (`cosmos/models/TaskFile.py`): the fields the
resolver and chaining code read are its identity, name and format. -/
structure TaskFile where
  id : Nat
  name : String
  format : String
deriving DecidableEq

/-- An abstract file declared on a Tool class (`AbstractInputFile` /
`AbstractOutputFile` in `cosmos/models/TaskFile.py`): an optional name,
an optional format, and (for inputs) the forward flag. -/
structure AbstractFile where
  name : Option String
  format : Option String
  forward : Bool
deriving DecidableEq

/-- The matching test inside `_find` (`Tool.py`, line 334):
`name in [tf.name, None] and format in [tf.format, None]`. -/
def matchesAF (af : AbstractFile) (tf : TaskFile) : Bool :=
  (match af.name with
   | none => true
   | some n => n == tf.name)
  && (match af.format with
      | none => true
      | some f => f == tf.format)

/-- Embedding of `_find` (`Tool.py`, lines 317-338) with the generator
fully forced into a list.  The function first asserts that the abstract
name or format is truthy; if the abstract format is `'*'` it yields
every taskfile (and never raises, even when there are none); otherwise
it yields the matching taskfiles and, when none matched and
`error_if_missing` is set, raises (`ValueError` in the code,
`ResolutionError` in the spec's taxonomy). -/
def _find (taskfiles : List TaskFile) (af : AbstractFile)
    (error_if_missing : Bool) : Except String (List TaskFile) :=
  if !(pyTruthyStr af.name || pyTruthyStr af.format) then
    .error "AssertionError"
  else if af.format == some "*" then
    .ok taskfiles
  else
    let found := taskfiles.filter (matchesAF af)
    if found.isEmpty && error_if_missing then .error "ResolutionError"
    else .ok found

/-- The fields of a parent `Task` read by `Tool._map_inputs`
(`Tool.py`, line 73): its output files and its forwarded inputs. -/
structure Parent where
  output_files : List TaskFile
  forwarded_inputs : List TaskFile
deriving DecidableEq

/-- The inner loop of `_map_inputs` over one abstract input: scan each
parent in order and collect `(taskfile, forward)` pairs from
`_find(p.output_files + p.forwarded_inputs, abstract_file, False)`. -/
def mapParentsFor (af : AbstractFile) : List Parent → Except String (List (TaskFile × Bool))
  | [] => .ok []
  | p :: ps =>
    match _find (p.output_files ++ p.forwarded_inputs) af false with
    | .error e => .error e
    | .ok tfs =>
      match mapParentsFor af ps with
      | .error e => .error e
      | .ok rest => .ok (tfs.map (fun tf => (tf, af.forward)) ++ rest)

/-- Embedding of `Tool._map_inputs` (`Tool.py`, lines 66-74) with the
generator fully forced: iterate the tool's abstract inputs in
declaration order, and for each iterate the parents in order. -/
def _map_inputs : List AbstractFile → List Parent → Except String (List (TaskFile × Bool))
  | [], _ => .ok []
  | af :: rest, parents =>
    match mapParentsFor af parents with
    | .error e => .error e
    | .ok ys =>
      match _map_inputs rest parents with
      | .error e => .error e
      | .ok zs => .ok (ys ++ zs)

/-- Modelled from the spec's matching rule (§4.2): a concrete file
matches when the abstract format is `'*'` (always matches), else when
both name and format match, treating a null abstract name or format as
a wildcard for that field.  Stated independently of `matchesAF` so the
code's resolver can be compared against the spec's words. -/
def specMatches (af : AbstractFile) (tf : TaskFile) : Bool :=
  (af.format == some "*")
  || ((af.name == none || af.name == some tf.name)
      && (af.format == none || af.format == some tf.format))

/-- Modelled from the spec's resolver description (§4.2): for each
abstract input in declaration order and each parent in order, exactly
the matching files among the parent's output files plus its forwarded
inputs, each paired with the abstract file's forward flag. -/
def specMapInputs (inputs : List AbstractFile) (parents : List Parent) :
    List (TaskFile × Bool) :=
  inputs.foldr
    (fun af acc =>
      parents.foldr
        (fun p acc2 =>
          ((p.output_files ++ p.forwarded_inputs).filter (specMatches af)).map
            (fun tf => (tf, af.forward)) ++ acc2)
        [] ++ acc)
    []

/-- Away from the wildcard format, the code's matching test agrees with
the spec's matching rule. -/
theorem matchesAF_eq_spec (af : AbstractFile) (tf : TaskFile)
    (hne : (af.format == some "*") = false) :
    matchesAF af tf = specMatches af tf := by
  simp only [specMatches, hne, Bool.false_or]
  cases hn : af.name <;> cases hq : af.format <;> simp [matchesAF, hn, hq]

/-- When the assertion passes, `_find` with `error_if_missing=False`
returns exactly the files selected by the spec's matching rule. -/
theorem find_false_eq_spec_filter (tfs : List TaskFile) (af : AbstractFile)
    (h : (pyTruthyStr af.name || pyTruthyStr af.format) = true) :
    _find tfs af false = .ok (tfs.filter (specMatches af)) := by
  by_cases hf : (af.format == some "*") = true
  · have hall : tfs.filter (specMatches af) = tfs :=
      List.filter_eq_self.mpr (fun a _ => by simp [specMatches, hf])
    simp [_find, h, hf, hall]
  · have hne : (af.format == some "*") = false := by
      exact Bool.eq_false_iff.mpr hf
    have hfil : tfs.filter (matchesAF af) = tfs.filter (specMatches af) :=
      List.filter_congr (fun tf _ => matchesAF_eq_spec af tf hne)
    simp [_find, h, hne, hfil]

/-- When the assertion passes, the parent scan of `_map_inputs` over one
abstract input succeeds and matches the spec's description. -/
theorem mapParentsFor_ok (af : AbstractFile)
    (haf : (pyTruthyStr af.name || pyTruthyStr af.format) = true)
    (parents : List Parent) :
    mapParentsFor af parents =
      .ok (parents.foldr
        (fun p acc2 =>
          ((p.output_files ++ p.forwarded_inputs).filter (specMatches af)).map
            (fun tf => (tf, af.forward)) ++ acc2)
        []) := by
  induction parents with
  | nil => rfl
  | cons p ps ihp =>
    simp only [mapParentsFor, find_false_eq_spec_filter _ af haf, ihp,
      List.foldr_cons]

/-- C4: for every tool input list and ordered parent list, provided
each abstract input has a truthy name or format (the assertion inside
`_find`, claimed separately as C10), the default input mapping yields
exactly the spec-described pairs: for each abstract input in
declaration order and each parent in order, the matching files among
the parent's outputs plus its forwarded inputs, paired with the
abstract file's forward flag, where format `'*'` always matches and a
null name or format is a wildcard. -/
theorem C4_map_inputs_spec (inputs : List AbstractFile) (parents : List Parent)
    (h : ∀ af ∈ inputs, (pyTruthyStr af.name || pyTruthyStr af.format) = true) :
    _map_inputs inputs parents = .ok (specMapInputs inputs parents) := by
  induction inputs with
  | nil => rfl
  | cons af rest ih =>
    have haf := h af (List.mem_cons_self af rest)
    have hrest : ∀ a ∈ rest, (pyTruthyStr a.name || pyTruthyStr a.format) = true :=
      fun a ha => h a (List.mem_cons_of_mem af ha)
    simp only [_map_inputs, mapParentsFor_ok af haf parents, ih hrest,
      specMapInputs, List.foldr_cons]

/-- C4 witness: two parents, one abstract input named `bam` with a
format wildcard and `forward=true`, one with format `'*'`. -/
theorem C4_map_inputs_spec_witness :
    _map_inputs
      [⟨some "bam", none, true⟩, ⟨none, some "*", false⟩]
      [⟨[⟨1, "bam", "bam"⟩, ⟨2, "log", "txt"⟩], [⟨3, "bam", "bai"⟩]⟩,
       ⟨[⟨4, "vcf", "vcf"⟩], []⟩] =
    .ok (specMapInputs
      [⟨some "bam", none, true⟩, ⟨none, some "*", false⟩]
      [⟨[⟨1, "bam", "bam"⟩, ⟨2, "log", "txt"⟩], [⟨3, "bam", "bai"⟩]⟩,
       ⟨[⟨4, "vcf", "vcf"⟩], []⟩]) := by
  exact C4_map_inputs_spec
    [⟨some "bam", none, true⟩, ⟨none, some "*", false⟩]
    [⟨[⟨1, "bam", "bam"⟩, ⟨2, "log", "txt"⟩], [⟨3, "bam", "bai"⟩]⟩,
     ⟨[⟨4, "vcf", "vcf"⟩], []⟩]
    (by decide)

/-- C5 counterexample.  The claim states that with
`error_if_missing=True` and no matching candidate, `_find` raises
`ResolutionError`.  With abstract format `'*'` and an empty candidate
list there is no match, yet the code returns an empty yield without
raising; and with a null name and format it raises `AssertionError`,
not `ResolutionError`. -/
theorem C5_counterexample :
    _find ([] : List TaskFile) ⟨none, some "*", false⟩ true = .ok []
    ∧ _find ([] : List TaskFile) ⟨none, none, false⟩ true = .error "AssertionError"
    ∧ (Except.error "AssertionError" : Except String (List TaskFile)) ≠ .ok [] := by
  exact ⟨rfl, rfl, fun h => Except.noConfusion h⟩

/-- C5 (amended): with `error_if_missing=True`, if the abstract file
passes the truthiness assertion, its format is not the wildcard `'*'`,
and no candidate matches, then `_find` raises `ResolutionError` (a
`ValueError` in the code). -/
theorem C5_resolution_error (tfs : List TaskFile) (af : AbstractFile)
    (h0 : (pyTruthyStr af.name || pyTruthyStr af.format) = true)
    (h1 : af.format ≠ some "*")
    (h2 : tfs.filter (matchesAF af) = []) :
    _find tfs af true = .error "ResolutionError" := by
  have hf2 : (af.format == some "*") = false := by simp [h1]
  simp [_find, h0, hf2, h2]

/-- C5 witness: a named abstract input with no matching candidate. -/
theorem C5_resolution_error_witness :
    _find [⟨1, "log", "txt"⟩] ⟨some "bam", none, false⟩ true =
      .error "ResolutionError" := by
  exact C5_resolution_error [⟨1, "log", "txt"⟩] ⟨some "bam", none, false⟩
    (by decide) (by decide) (by decide)

/-- C10: when both the abstract name and format are null, `_find` fails
with the assertion `assert name or format` regardless of the candidate
list and of `error_if_missing`. -/
theorem C10_find_assert (tfs : List TaskFile) (af : AbstractFile) (eim : Bool)
    (h1 : af.name = none) (h2 : af.format = none) :
    _find tfs af eim = .error "AssertionError" := by
  simp [_find, h1, h2, pyTruthyStr]

/-- C10 witness: a fully wildcarded abstract file against a nonempty
candidate list, with and without `error_if_missing`. -/
theorem C10_find_assert_witness :
    _find [⟨1, "bam", "bam"⟩] ⟨none, none, false⟩ false = .error "AssertionError" := by
  exact C10_find_assert [⟨1, "bam", "bam"⟩] ⟨none, none, false⟩ false rfl rfl

/-- The class-level attributes of a Tool subclass read by `chain`
(`Tool.py`, lines 30-38 and 301-313): declared abstract inputs and
outputs, resource requests, and the `must_succeed`, `NOOP` and
`persist` flags. -/
structure ToolClass where
  name : String
  inputs : List AbstractFile
  outputs : List AbstractFile
  mem_req : Option Nat
  time_req : Option Nat
  cpu_req : Option Nat
  must_succeed : Bool
  NOOP : Bool
  persist : Bool
deriving DecidableEq

/-- Python 2 `max` on two optional integers: `None` compares below
every integer. -/
def omax : Option Nat → Option Nat → Option Nat
  | none, b => b
  | some a, none => some a
  | some a, some b => some (max a b)

/-- Python 2 `<=` on optional integers (`None` is the bottom element). -/
def ole : Option Nat → Option Nat → Bool
  | none, _ => true
  | some _, none => false
  | some a, some b => decide (a ≤ b)

/-- Python 2 `max` over a nonempty sequence, first element `x`. -/
def pymax (x : Option Nat) (xs : List (Option Nat)) : Option Nat :=
  xs.foldl omax x

/-- Concatenation of mapped lists, embedding
`list(itertools.chain(*(tc.outputs for tc in tool_classes)))`. -/
def concatMap (f : α → List β) : List α → List β
  | [] => []
  | x :: xs => f x ++ concatMap f xs

/-- Embedding of `chain` (`Tool.py`, lines 244-314): after asserting
that no tool is a NOOP, the synthesized CollapsedTool keeps the first
tool's inputs, concatenates every tool's outputs in order, takes the
Python `max` of each resource request, and or-combines `must_succeed`
and `persist`.  An empty argument tuple fails at `tool_classes[0]`
(`IndexError`). -/
def chain (tcs : List ToolClass) : Except String ToolClass :=
  if tcs.any (fun t => t.NOOP) then
    .error "AssertionError"
  else
    match tcs with
    | [] => .error "IndexError"
    | t0 :: rest =>
      .ok { name := String.intercalate "__" ((t0 :: rest).map (fun t => t.name)),
            inputs := t0.inputs,
            outputs := concatMap (fun t => t.outputs) (t0 :: rest),
            mem_req := pymax t0.mem_req (rest.map (fun t => t.mem_req)),
            time_req := pymax t0.time_req (rest.map (fun t => t.time_req)),
            cpu_req := pymax t0.cpu_req (rest.map (fun t => t.cpu_req)),
            must_succeed := (t0 :: rest).any (fun t => t.must_succeed),
            NOOP := false,
            persist := (t0 :: rest).any (fun t => t.persist) }

/-- `ole` is reflexive. -/
theorem ole_refl (a : Option Nat) : ole a a = true := by
  cases a <;> simp [ole]

/-- `ole` is transitive. -/
theorem ole_trans {a b c : Option Nat} (h1 : ole a b = true) (h2 : ole b c = true) :
    ole a c = true := by
  cases a <;> cases b <;> cases c <;> simp_all [ole]
  omega

/-- The left argument is below the Python max. -/
theorem ole_omax_left (a b : Option Nat) : ole a (omax a b) = true := by
  cases a <;> cases b <;> simp [ole, omax]

/-- The right argument is below the Python max. -/
theorem ole_omax_right (a b : Option Nat) : ole b (omax a b) = true := by
  cases a <;> cases b <;> simp [ole, omax]

/-- The Python max of two values is one of them. -/
theorem omax_choice (a b : Option Nat) : omax a b = a ∨ omax a b = b := by
  cases a with
  | none => exact Or.inr rfl
  | some x =>
    cases b with
    | none => exact Or.inl rfl
    | some y =>
      rcases max_choice x y with h | h
      · exact Or.inl (by simp [omax, h])
      · exact Or.inr (by simp [omax, h])

/-- The start of a Python max fold is below its result. -/
theorem pymax_le_start (xs : List (Option Nat)) :
    ∀ x, ole x (pymax x xs) = true := by
  induction xs with
  | nil => intro x; exact ole_refl x
  | cons y ys ih =>
    intro x
    exact ole_trans (ole_omax_left x y) (ih (omax x y))

/-- Every element of the fold list is below the Python max. -/
theorem pymax_le_mem (xs : List (Option Nat)) :
    ∀ x, ∀ y ∈ xs, ole y (pymax x xs) = true := by
  induction xs with
  | nil => intro x y hy; exact absurd hy (List.not_mem_nil y)
  | cons z zs ih =>
    intro x y hy
    rcases List.mem_cons.mp hy with h | h
    · subst h
      exact ole_trans (ole_omax_right x y) (pymax_le_start zs (omax x y))
    · exact ih (omax x z) y h

/-- The Python max of a nonempty sequence is attained by an element. -/
theorem pymax_mem (xs : List (Option Nat)) :
    ∀ x, pymax x xs ∈ x :: xs := by
  induction xs with
  | nil => intro x; exact List.mem_cons_self x []
  | cons y ys ih =>
    intro x
    have h := ih (omax x y)
    rcases List.mem_cons.mp h with h1 | h1
    · rcases omax_choice x y with h2 | h2
      · rw [show pymax x (y :: ys) = pymax (omax x y) ys from rfl, h1, h2]
        exact List.mem_cons_self x (y :: ys)
      · rw [show pymax x (y :: ys) = pymax (omax x y) ys from rfl, h1, h2]
        exact List.mem_cons_of_mem x (List.mem_cons_self y ys)
    · exact List.mem_cons_of_mem x (List.mem_cons_of_mem y h1)

/-- C2: chaining T1..Tn (n ≥ 1) fails when any Ti is a NOOP, and
otherwise synthesizes a Tool class whose inputs are T1's inputs, whose
outputs concatenate all Ti outputs in order, whose mem_req, time_req
and cpu_req are each the maximum over the Ti (an upper bound that is
attained), and whose must_succeed and persist are the disjunctions of
the Ti flags. -/
theorem C2_chain_spec (t0 : ToolClass) (rest : List ToolClass) :
    (((t0 :: rest).any (fun t => t.NOOP)) = true →
      chain (t0 :: rest) = .error "AssertionError")
    ∧ (((t0 :: rest).any (fun t => t.NOOP)) = false →
      ∃ ct, chain (t0 :: rest) = .ok ct
        ∧ ct.inputs = t0.inputs
        ∧ ct.outputs = concatMap (fun t => t.outputs) (t0 :: rest)
        ∧ (∀ t ∈ t0 :: rest, ole t.mem_req ct.mem_req = true
            ∧ ole t.time_req ct.time_req = true
            ∧ ole t.cpu_req ct.cpu_req = true)
        ∧ ct.mem_req ∈ (t0 :: rest).map (fun t => t.mem_req)
        ∧ ct.time_req ∈ (t0 :: rest).map (fun t => t.time_req)
        ∧ ct.cpu_req ∈ (t0 :: rest).map (fun t => t.cpu_req)
        ∧ ct.must_succeed = (t0 :: rest).any (fun t => t.must_succeed)
        ∧ ct.persist = (t0 :: rest).any (fun t => t.persist)) := by
  constructor
  · intro h
    simp [chain, h]
  · intro h
    have hchain : chain (t0 :: rest) = .ok
        { name := String.intercalate "__" ((t0 :: rest).map (fun t => t.name)),
          inputs := t0.inputs,
          outputs := concatMap (fun t => t.outputs) (t0 :: rest),
          mem_req := pymax t0.mem_req (rest.map (fun t => t.mem_req)),
          time_req := pymax t0.time_req (rest.map (fun t => t.time_req)),
          cpu_req := pymax t0.cpu_req (rest.map (fun t => t.cpu_req)),
          must_succeed := (t0 :: rest).any (fun t => t.must_succeed),
          NOOP := false,
          persist := (t0 :: rest).any (fun t => t.persist) } := by
      simp [chain, h]
    refine ⟨_, hchain, rfl, rfl, ?_, ?_, ?_, ?_, rfl, rfl⟩
    · intro t ht
      rcases List.mem_cons.mp ht with h1 | h1
      · subst h1
        exact ⟨pymax_le_start _ _, pymax_le_start _ _, pymax_le_start _ _⟩
      · exact ⟨pymax_le_mem (rest.map (fun t => t.mem_req)) t0.mem_req t.mem_req
                 (List.mem_map_of_mem (fun t => t.mem_req) h1),
               pymax_le_mem (rest.map (fun t => t.time_req)) t0.time_req t.time_req
                 (List.mem_map_of_mem (fun t => t.time_req) h1),
               pymax_le_mem (rest.map (fun t => t.cpu_req)) t0.cpu_req t.cpu_req
                 (List.mem_map_of_mem (fun t => t.cpu_req) h1)⟩
    · simpa using pymax_mem (rest.map (fun t => t.mem_req)) t0.mem_req
    · simpa using pymax_mem (rest.map (fun t => t.time_req)) t0.time_req
    · simpa using pymax_mem (rest.map (fun t => t.cpu_req)) t0.cpu_req

/-- A concrete non-NOOP tool used by the chaining witnesses. -/
def tcA : ToolClass :=
  ⟨"A", [⟨some "in", some "txt", false⟩], [⟨some "mid", some "txt", false⟩],
    some 100, none, some 1, true, false, false⟩

/-- A second concrete non-NOOP tool used by the chaining witnesses. -/
def tcB : ToolClass :=
  ⟨"B", [⟨some "mid", some "txt", false⟩], [⟨some "out", some "txt", false⟩],
    some 50, some 10, some 2, false, false, true⟩

/-- C2 witness: chaining two concrete non-NOOP tools. -/
theorem C2_chain_spec_witness :
    ∃ ct, chain [tcA, tcB] = .ok ct
      ∧ ct.inputs = tcA.inputs
      ∧ ct.outputs = concatMap (fun t => t.outputs) [tcA, tcB]
      ∧ (∀ t ∈ [tcA, tcB],
          ole t.mem_req ct.mem_req = true
          ∧ ole t.time_req ct.time_req = true
          ∧ ole t.cpu_req ct.cpu_req = true)
      ∧ ct.mem_req ∈ [tcA, tcB].map (fun t => t.mem_req)
      ∧ ct.time_req ∈ [tcA, tcB].map (fun t => t.time_req)
      ∧ ct.cpu_req ∈ [tcA, tcB].map (fun t => t.cpu_req)
      ∧ ct.must_succeed = [tcA, tcB].any (fun t => t.must_succeed)
      ∧ ct.persist = [tcA, tcB].any (fun t => t.persist) := by
  exact (C2_chain_spec tcA [tcB]).2 (by decide)

/-- An `InputFileAssociation` (`cosmos/models/TaskFile.py`): an edge
recording that the task `consumer_id` consumes the taskfile `tf_id`. -/
structure IFA where
  tf_id : Nat
  consumer_id : Nat
deriving DecidableEq

/-- The state of a chained task at command-render time: its output
files, its input files, and the incoming InputFileAssociations of its
output files (edges from downstream consumers). -/
structure CTask where
  output_files : List TaskFile
  input_files : List TaskFile
  ifas : List IFA
deriving DecidableEq

/-- Embedding of `next(_find(taskfiles, abstract_output, True))`
(`Tool.py`, line 275): the first yield of the `_find` generator.  If the
generator yields nothing, `next` propagates the generator's terminal
behaviour: `ValueError` when `error_if_missing` fires, `StopIteration`
in the wildcard-format branch. -/
def nextFind (taskfiles : List TaskFile) (af : AbstractFile) :
    Except String TaskFile :=
  match _find taskfiles af true with
  | .error e => .error e
  | .ok [] => .error "StopIteration"
  | .ok (tf :: _) => .ok tf

/-- The abstract-output assignment loop of `instantiate_tools`
(`Tool.py`, lines 273-277): for each abstract output of the tool, take
the first remaining match and remove it from the unassigned pool. -/
def assignOutputs : List AbstractFile → List TaskFile →
    Except String (List TaskFile × List TaskFile)
  | [], all_outputs => .ok ([], all_outputs)
  | ao :: rest, all_outputs =>
    match nextFind all_outputs ao with
    | .error e => .error e
    | .ok tf =>
      match assignOutputs rest (all_outputs.erase tf) with
      | .error e => .error e
      | .ok (assigned, remaining) => .ok (tf :: assigned, remaining)

/-- The forwarded-input collection of `instantiate_tools` (`Tool.py`,
lines 280-282): for each abstract input with `forward=True`, all of
`_find(this_input_taskfiles, abstract_input, True)`. -/
def forwardedOf : List AbstractFile → List TaskFile → Except String (List TaskFile)
  | [], _ => .ok []
  | ai :: rest, inputs =>
    if ai.forward then
      match _find inputs ai true with
      | .error e => .error e
      | .ok tfs =>
        match forwardedOf rest inputs with
        | .error e => .error e
        | .ok more => .ok (tfs ++ more)
    else forwardedOf rest inputs

/-- Embedding of the `instantiate_tools` generator (`Tool.py`, lines
264-283) as consumed by the chained `_generate_command`: it returns, for
the *last* tool in the chain, the pair (assigned concrete outputs,
forwarded inputs).  The Python `for` loop's final `output_taskfiles`
value is their concatenation, because `this_output_taskfiles +=
list(_find(...))` extends the already-yielded list in place before the
generator terminates. -/
def instantiateLast : List ToolClass → List TaskFile → List TaskFile →
    Except String (List TaskFile × List TaskFile)
  | [], _, _ => .error "NameError"
  | tc :: rest, all_outputs, this_inputs =>
    match assignOutputs tc.outputs all_outputs with
    | .error e => .error e
    | .ok (assigned, remaining) =>
      match forwardedOf tc.inputs this_inputs with
      | .error e => .error e
      | .ok fwd =>
        match rest with
        | [] => .ok (assigned, fwd)
        | tc2 :: rest2 => instantiateLast (tc2 :: rest2) remaining (assigned ++ fwd)

/-- The removal set of the chained `_generate_command` (`Tool.py`, line
293): `set(task.output_files) - set(output_taskfiles)`, where
`output_taskfiles` is the last tool's assigned outputs plus its
forwarded inputs. -/
def chainRemove (tools : List ToolClass) (task : CTask) :
    Except String (List TaskFile) :=
  match instantiateLast tools task.output_files task.input_files with
  | .error e => .error e
  | .ok (assigned, fwd) =>
    .ok (task.output_files.filter (fun tf => !decide (tf ∈ assigned ++ fwd)))

/-- The InputFileAssociation deletion of the chained
`_generate_command` (`Tool.py`, lines 292-296): every incoming
association of every removed output file is deleted; the result is the
surviving association list. -/
def chainRenderEffect (tools : List ToolClass) (task : CTask) :
    Except String (List IFA) :=
  match chainRemove tools task with
  | .error e => .error e
  | .ok remove =>
    .ok (task.ifas.filter (fun ifa => !remove.any (fun tf => decide (tf.id = ifa.tf_id))))

/-- A tool with one concrete output `a.txt` and no inputs, used for the
chaining counterexample. -/
def tcFwdA : ToolClass :=
  ⟨"A", [], [⟨some "a", some "txt", false⟩], none, none, none, true, false, false⟩

/-- A tool that consumes `a.txt` with `forward=true` and produces
`b.txt`, used for the chaining counterexample. -/
def tcFwdB : ToolClass :=
  ⟨"B", [⟨some "a", some "txt", true⟩], [⟨some "b", some "txt", false⟩],
    none, none, none, true, false, false⟩

/-- The chained task for the C3 counterexample: outputs `a.txt` (id 1,
produced by `tcFwdA`) and `b.txt` (id 2, produced by `tcFwdB`), and one
downstream association consuming file 1. -/
def ctaskC3 : CTask :=
  ⟨[⟨1, "a", "txt"⟩, ⟨2, "b", "txt"⟩], [], [⟨1, 99⟩]⟩

/-- C3 counterexample.  In `chain(tcFwdA, tcFwdB)` the concrete outputs
assigned to the last tool are `[file 2]`, and file 1 is an output of the
task not assigned to the last tool, so the claim requires file 1's
incoming InputFileAssociation `⟨1, 99⟩` to be deleted.  But `tcFwdB`
forwards file 1, the generator's in-place `+=` makes the final
`output_taskfiles` equal `[file 2, file 1]`, and the code keeps the
association. -/
theorem C3_counterexample :
    instantiateLast [tcFwdA, tcFwdB] ctaskC3.output_files ctaskC3.input_files =
      .ok ([⟨2, "b", "txt"⟩], [⟨1, "a", "txt"⟩])
    ∧ chainRenderEffect [tcFwdA, tcFwdB] ctaskC3 = .ok [⟨1, 99⟩]
    ∧ (⟨1, "a", "txt"⟩ : TaskFile) ∈ ctaskC3.output_files
    ∧ (⟨1, "a", "txt"⟩ : TaskFile) ∉ [(⟨2, "b", "txt"⟩ : TaskFile)] := by
  exact ⟨rfl, rfl, by decide, by decide⟩

/-- C3 (amended): after rendering a chained task's command, an incoming
InputFileAssociation survives iff its taskfile is not an output of the
task outside the last tool's kept set, where the kept set is the last
tool's assigned concrete outputs *plus* its forwarded inputs; every
association of an output file outside that kept set is deleted. -/
theorem C3_chain_demotion (tools : List ToolClass) (task : CTask)
    (asg fwd : List TaskFile) (r : List IFA)
    (h1 : instantiateLast tools task.output_files task.input_files = .ok (asg, fwd))
    (h2 : chainRenderEffect tools task = .ok r) :
    ∀ ifa ∈ task.ifas,
      (ifa ∈ r ↔ ∀ tf ∈ task.output_files, tf.id = ifa.tf_id → tf ∈ asg ++ fwd) := by
  simp only [chainRenderEffect, chainRemove, h1, Except.ok.injEq] at h2
  subst h2
  intro ifa hifa
  constructor
  · intro hm tf htf hid
    have hp := (List.mem_filter.mp hm).2
    by_contra hmem
    have htfr : tf ∈ task.output_files.filter (fun x => !decide (x ∈ asg ++ fwd)) :=
      List.mem_filter.mpr ⟨htf, by simp [hmem]⟩
    have ha : (task.output_files.filter (fun x => !decide (x ∈ asg ++ fwd))).any
        (fun x => decide (x.id = ifa.tf_id)) = true :=
      List.any_eq_true.mpr ⟨tf, htfr, by simp [hid]⟩
    rw [ha] at hp
    simp at hp
  · intro h
    refine List.mem_filter.mpr ⟨hifa, ?_⟩
    have ha : (task.output_files.filter (fun x => !decide (x ∈ asg ++ fwd))).any
        (fun x => decide (x.id = ifa.tf_id)) = false := by
      rw [List.any_eq_false]
      intro x hx
      have hx2 := List.mem_filter.mp hx
      simp only [Bool.not_eq_true', decide_eq_false_iff_not] at hx2
      simp only [decide_eq_true_eq]
      intro hid
      exact hx2.2 (h x hx2.1 hid)
    rw [Bool.not_eq_true']
    exact ha

/-- C3 witness: a single-tool chain where the second output file is not
produced by the (only and last) tool, so its association is deleted
while the assigned output's association survives. -/
theorem C3_chain_demotion_witness :
    (⟨3, 77⟩ : IFA) ∈ ([⟨1, 99⟩, ⟨3, 77⟩] : List IFA)
    ∧ ((⟨3, 77⟩ : IFA) ∈ ([⟨1, 99⟩] : List IFA) ↔
        ∀ tf ∈ [(⟨1, "a", "txt"⟩ : TaskFile), ⟨3, "c", "txt"⟩],
          tf.id = 3 → tf ∈ [(⟨1, "a", "txt"⟩ : TaskFile)] ++ []) := by
  refine ⟨by decide, ?_⟩
  exact C3_chain_demotion [tcFwdA]
    ⟨[⟨1, "a", "txt"⟩, ⟨3, "c", "txt"⟩], [], [⟨1, 99⟩, ⟨3, 77⟩]⟩
    [⟨1, "a", "txt"⟩] [] [⟨1, 99⟩] rfl rfl ⟨3, 77⟩ (by decide)

/-- A file object as seen by `Tool.__validate` (`Tool.py`, lines 50-57):
its Python class name and its (name, format) pair. -/
structure DeclFile where
  className : String
  name : Option String
  format : Option String
deriving DecidableEq

/-- The parts of a Tool instantiation read by `Tool.__validate`
(`Tool.py`, lines 49-63): declared inputs and outputs, the declared
parameter names of `cmd` (`getargspec(self.cmd).args`), and the keys of
the user tag dictionary. -/
structure ToolDecl where
  inputs : List DeclFile
  outputs : List DeclFile
  cmdArgs : List String
  tagKeys : List String
deriving DecidableEq

/-- Modelled from the spec: `has_duplicates` lives in
`cosmos/util/helpers.py`, which is not part of the provided source; the
spec (§4.1) requires detecting a duplicate (name, format) pair among
the declared inputs or outputs. -/
def hasDuplicates [DecidableEq α] : List α → Bool
  | [] => false
  | x :: xs => decide (x ∈ xs) || hasDuplicates xs

/-- The reserved parameter names of `Tool.cmd`. -/
def reservedKeys : List String := ["i", "o", "s"]

/-- Embedding of `Tool.__validate` (`Tool.py`, lines 49-63), checks in
source order.  The instance checks on inputs/outputs and the
`cmd`-signature check are `assert` statements (`AssertionError`); the
duplicate checks and the reserved-tag check raise
`ToolValidationError`. -/
def validateTool (t : ToolDecl) : Except String Unit :=
  if t.inputs.all (fun i => i.className == "AbstractInputFile") then
    if t.outputs.all (fun o => o.className == "AbstractOutputFile") then
      if hasDuplicates (t.inputs.map (fun i => (i.name, i.format))) then
        .error "ToolValidationError"
      else if hasDuplicates (t.outputs.map (fun o => (o.name, o.format))) then
        .error "ToolValidationError"
      else if reservedKeys.all (fun k => t.cmdArgs.contains k) then
        if t.tagKeys.any (fun k => reservedKeys.contains k) then
          .error "ToolValidationError"
        else .ok ()
      else .error "AssertionError"
    else .error "AssertionError"
  else .error "AssertionError"

/-- C6 counterexample.  A Tool whose single declared input is not an
`AbstractInputFile` (condition (a) of the claim) fails with
`AssertionError`, not `ToolValidationError`: the instance checks and
the `cmd`-signature check are plain asserts. -/
theorem C6_counterexample :
    validateTool ⟨[⟨"Foo", some "x", some "txt"⟩], [], ["self", "i", "o", "s"], []⟩ =
      .error "AssertionError"
    ∧ ("AssertionError" : String) ≠ "ToolValidationError" := by
  exact ⟨rfl, by decide⟩

/-- C6 (amended): Tool validation fails exactly when one of the claim's
conditions (a)-(d) holds, with checks run in source order; but (a)
(non-AbstractFile inputs/outputs) and (c) (`cmd` missing one of `i`,
`o`, `s`) fail with `AssertionError`, while (b) (duplicate
(name, format) pairs) and (d) (reserved tag keys) fail with
`ToolValidationError`. -/
theorem C6_validate_spec (t : ToolDecl) :
    (validateTool t = .ok () ↔
      (t.inputs.all (fun i => i.className == "AbstractInputFile") = true
       ∧ t.outputs.all (fun o => o.className == "AbstractOutputFile") = true
       ∧ hasDuplicates (t.inputs.map (fun i => (i.name, i.format))) = false
       ∧ hasDuplicates (t.outputs.map (fun o => (o.name, o.format))) = false
       ∧ reservedKeys.all (fun k => t.cmdArgs.contains k) = true
       ∧ t.tagKeys.any (fun k => reservedKeys.contains k) = false))
    ∧ (t.inputs.all (fun i => i.className == "AbstractInputFile") = false →
        validateTool t = .error "AssertionError")
    ∧ (t.inputs.all (fun i => i.className == "AbstractInputFile") = true →
       t.outputs.all (fun o => o.className == "AbstractOutputFile") = false →
        validateTool t = .error "AssertionError")
    ∧ (t.inputs.all (fun i => i.className == "AbstractInputFile") = true →
       t.outputs.all (fun o => o.className == "AbstractOutputFile") = true →
       hasDuplicates (t.inputs.map (fun i => (i.name, i.format))) = true →
        validateTool t = .error "ToolValidationError")
    ∧ (t.inputs.all (fun i => i.className == "AbstractInputFile") = true →
       t.outputs.all (fun o => o.className == "AbstractOutputFile") = true →
       hasDuplicates (t.inputs.map (fun i => (i.name, i.format))) = false →
       hasDuplicates (t.outputs.map (fun o => (o.name, o.format))) = true →
        validateTool t = .error "ToolValidationError")
    ∧ (t.inputs.all (fun i => i.className == "AbstractInputFile") = true →
       t.outputs.all (fun o => o.className == "AbstractOutputFile") = true →
       hasDuplicates (t.inputs.map (fun i => (i.name, i.format))) = false →
       hasDuplicates (t.outputs.map (fun o => (o.name, o.format))) = false →
       reservedKeys.all (fun k => t.cmdArgs.contains k) = false →
        validateTool t = .error "AssertionError")
    ∧ (t.inputs.all (fun i => i.className == "AbstractInputFile") = true →
       t.outputs.all (fun o => o.className == "AbstractOutputFile") = true →
       hasDuplicates (t.inputs.map (fun i => (i.name, i.format))) = false →
       hasDuplicates (t.outputs.map (fun o => (o.name, o.format))) = false →
       reservedKeys.all (fun k => t.cmdArgs.contains k) = true →
       t.tagKeys.any (fun k => reservedKeys.contains k) = true →
        validateTool t = .error "ToolValidationError") := by
  refine ⟨?_, ?_, ?_, ?_, ?_, ?_, ?_⟩
  · unfold validateTool
    split_ifs with h1 h2 h3 h4 h5 h6 <;> simp_all
  · intro h1
    simp [validateTool, h1]
  · intro h1 h2
    simp [validateTool, h1, h2]
  · intro h1 h2 h3
    simp [validateTool, h1, h2, h3]
  · intro h1 h2 h3 h4
    simp [validateTool, h1, h2, h3, h4]
  · intro h1 h2 h3 h4 h5
    simp_all [validateTool]
  · intro h1 h2 h3 h4 h5 h6
    simp_all [validateTool]

/-- C6 witness: a well-formed Tool declaration validates, derived from
the ok-characterization at a concrete declaration. -/
theorem C6_validate_spec_witness :
    validateTool ⟨[⟨"AbstractInputFile", some "in", some "txt"⟩],
                  [⟨"AbstractOutputFile", some "out", some "txt"⟩],
                  ["self", "i", "o", "s"], ["sample"]⟩ = .ok () := by
  exact (C6_validate_spec ⟨[⟨"AbstractInputFile", some "in", some "txt"⟩],
    [⟨"AbstractOutputFile", some "out", some "txt"⟩],
    ["self", "i", "o", "s"], ["sample"]⟩).1.mpr (by decide)

/-- A Python enum member value as written in `cosmos/__init__.py`: a
plain string, or a 1-tuple of a string where the declaration line ends
with a trailing comma. -/
inductive PyVal where
  | s (v : String)
  | tup1 (v : String)
deriving DecidableEq

/-- Embedding of `MyEnum.__str__`, which returns `"%s" % self._value_`
(`cosmos/__init__.py`, lines 145-147): the Python `%` operator unpacks
a 1-tuple argument, so both value shapes render as the bare string. -/
def pyPercentS : PyVal → String
  | .s v => v
  | .tup1 v => v

/-- `TaskStatus` (`cosmos/__init__.py`, lines 150-156). -/
inductive TaskStatus where
  | no_attempt
  | waiting
  | submitted
  | successful
  | failed
  | killed
deriving DecidableEq

/-- The `_value_` of each `TaskStatus` member: the lines for
`no_attempt`, `waiting`, `submitted` and `successful` end with a
trailing comma and so carry 1-tuple values. -/
def TaskStatus.value : TaskStatus → PyVal
  | .no_attempt => .tup1 "Has not been attempted"
  | .waiting => .tup1 "Waiting to execute"
  | .submitted => .tup1 "Submitted to the job manager"
  | .successful => .tup1 "Finished successfully"
  | .failed => .s "Finished, but failed"
  | .killed => .s "Manually killed"

/-- The Python identifier of each `TaskStatus` member. -/
def TaskStatus.pyName : TaskStatus → String
  | .no_attempt => "no_attempt"
  | .waiting => "waiting"
  | .submitted => "submitted"
  | .successful => "successful"
  | .failed => "failed"
  | .killed => "killed"

/-- The externally exchanged string of a `TaskStatus`:
`str(member)` via `MyEnum.__str__`. -/
def TaskStatus.wireStr (st : TaskStatus) : String :=
  pyPercentS st.value

/-- `StageStatus` (`cosmos/__init__.py`, lines 159-165). -/
inductive StageStatus where
  | no_attempt
  | running
  | running_but_failed
  | successful
  | failed
  | killed
deriving DecidableEq

/-- The `_value_` of each `StageStatus` member. -/
def StageStatus.value : StageStatus → PyVal
  | .no_attempt => .tup1 "Has not been attempted"
  | .running => .tup1 "Running"
  | .running_but_failed => .s "Running, but a task failed"
  | .successful => .tup1 "Finished successfully"
  | .failed => .s "Finished, but failed"
  | .killed => .s "Manually killed"

/-- The Python identifier of each `StageStatus` member. -/
def StageStatus.pyName : StageStatus → String
  | .no_attempt => "no_attempt"
  | .running => "running"
  | .running_but_failed => "running_but_failed"
  | .successful => "successful"
  | .failed => "failed"
  | .killed => "killed"

/-- The externally exchanged string of a `StageStatus`. -/
def StageStatus.wireStr (st : StageStatus) : String :=
  pyPercentS st.value

/-- `ExecutionStatus` (`cosmos/__init__.py`, lines 168-174). -/
inductive ExecutionStatus where
  | no_attempt
  | running
  | successful
  | killed
  | failed_but_running
  | failed
deriving DecidableEq

/-- The `_value_` of each `ExecutionStatus` member. -/
def ExecutionStatus.value : ExecutionStatus → PyVal
  | .no_attempt => .tup1 "Has not been attempted"
  | .running => .tup1 "Execution is running"
  | .successful => .tup1 "Finished successfully"
  | .killed => .s "Manually killed"
  | .failed_but_running => .s "Running, but a task failed"
  | .failed => .s "Finished, but failed"

/-- The Python identifier of each `ExecutionStatus` member. -/
def ExecutionStatus.pyName : ExecutionStatus → String
  | .no_attempt => "no_attempt"
  | .running => "running"
  | .successful => "successful"
  | .killed => "killed"
  | .failed_but_running => "failed_but_running"
  | .failed => "failed"

/-- The externally exchanged string of an `ExecutionStatus`. -/
def ExecutionStatus.wireStr (st : ExecutionStatus) : String :=
  pyPercentS st.value

/-- C8 counterexample.  The claim states statuses are exchanged as
their enum names; but `MyEnum.__str__` returns `"%s" % self._value_`,
the human-readable description: `str(TaskStatus.no_attempt)` is
`"Has not been attempted"`, not `"no_attempt"`. -/
theorem C8_counterexample :
    TaskStatus.wireStr TaskStatus.no_attempt = "Has not been attempted"
    ∧ TaskStatus.pyName TaskStatus.no_attempt = "no_attempt"
    ∧ ("Has not been attempted" : String) ≠ "no_attempt" := by
  exact ⟨rfl, rfl, by decide⟩

/-- C8 (amended): for every `TaskStatus`, `StageStatus` and
`ExecutionStatus` member, the externally exchanged string
representation (`MyEnum.__str__`) is the member's value — its
human-readable description, with a one-element tuple value unpacked by
`%`-formatting — and differs from the member's enum name for every
member of the three status enums. -/
theorem C8_enum_wire_names :
    (∀ st : TaskStatus, st.wireStr = pyPercentS st.value ∧ st.wireStr ≠ st.pyName)
    ∧ (∀ st : StageStatus, st.wireStr = pyPercentS st.value ∧ st.wireStr ≠ st.pyName)
    ∧ (∀ st : ExecutionStatus, st.wireStr = pyPercentS st.value ∧ st.wireStr ≠ st.pyName) := by
  refine ⟨?_, ?_, ?_⟩ <;> intro st <;> cases st <;> exact ⟨rfl, by decide⟩

/-- C8 witness: the amended statement applied to a concrete member. -/
theorem C8_enum_wire_names_witness :
    TaskStatus.wireStr TaskStatus.failed = pyPercentS TaskStatus.failed.value
    ∧ TaskStatus.wireStr TaskStatus.failed ≠ TaskStatus.pyName TaskStatus.failed := by
  exact C8_enum_wire_names.1 TaskStatus.failed
